import Mathlib

/-!
# Verification of `parse_csv.py`

A shallow embedding of the vacancy-analysis pipeline in `src/parse_csv.py`
(pandas batch script), together with theorems settling the specification
claims.  Conventions:

* A pandas row is a `Row` record; nullable (NaN-able) cells are `Option`.
* Salary numbers are modelled as `ℚ`; NaN propagation through arithmetic
  (`NaN + x = NaN`) is modelled by `Option`-valued addition (`nanAdd`).
* Python exceptions are modelled by `Except String`; a `try/except` block
  becomes a `match` on the `Except` value.
* The external HTTP response (`requests.get(...).json()`) is a parameter of
  type `Except String Json`: `.error` models the request or JSON-decoding
  raising, `.ok data` models a decoded JSON document.
-/

set_option autoImplicit false

namespace ParseCsv

/-- One vacancy record of the CSV table.  Columns used by the script:
`name` (title), `area_name` (city), `published_at` (kept as its year, which is
all the script extracts), `salary_from`, `salary_to`, `salary_currency`,
`key_skills`.  Nullable columns are `Option`. -/
structure Row where
  name : Option String
  area_name : Option String
  published_year : Int
  salary_from : Option ℚ
  salary_to : Option ℚ
  salary_currency : String
  key_skills : Option String
deriving DecidableEq, Repr

/-! ## Salary normalizer — `clean_salaries` (lines 6–21) -/

/-- Pandas NaN-propagating addition: `NaN + x = NaN`. -/
def nanAdd (a b : Option ℚ) : Option ℚ :=
  match a, b with
  | some x, some y => some (x + y)
  | _, _ => none

/-- The two sequential `fillna` assignments of `clean_salaries`
(lines 15–16): `salary_from` is filled from the original `salary_to`, then
`salary_to` is filled from the *updated* `salary_from`. -/
def fillRow (r : Row) : Row :=
  let f := match r.salary_from with
    | some v => some v
    | none => r.salary_to
  let t := match r.salary_to with
    | some v => some v
    | none => f
  { r with salary_from := f, salary_to := t }

/-- `clean_salaries` (lines 6–21): fill the half-missing salary bounds row by
row, then `dropna(subset=['salary_from','salary_to'], how='all')`, i.e. drop
exactly the rows where both bounds are still missing. -/
def clean_salaries (rows : List Row) : List Row :=
  (rows.map fillRow).filter
    (fun r => !(r.salary_from = none && r.salary_to = none))

/-! ## Currency rate provider — `get_currency_rates` (lines 24–45) -/

/-- A JSON value, as far as the script inspects one: numbers and string-keyed
objects (`data['Valute']['USD']['Value']`). -/
inductive Json where
  | num (q : ℚ)
  | str (s : String)
  | obj (fields : List (String × Json))

/-- Python `d[k]` on a decoded JSON object: raises `KeyError` when the key is
missing and `TypeError` when the value is not an object. -/
def Json.getKey : Json → String → Except String Json
  | Json.obj fs, k =>
    match fs.lookup k with
    | some v => Except.ok v
    | none => Except.error "KeyError"
  | _, _ => Except.error "TypeError"

/-- Reading a JSON value as a number; raising otherwise. -/
def Json.getNum : Json → Except String ℚ
  | Json.num q => Except.ok q
  | _ => Except.error "TypeError"

/-- The chained lookup `data['Valute'][code]['Value']`. -/
def getValute (data : Json) (code : String) : Except String ℚ :=
  match data.getKey "Valute" with
  | Except.error e => Except.error e
  | Except.ok v =>
    match v.getKey code with
    | Except.error e => Except.error e
    | Except.ok c =>
      match c.getKey "Value" with
      | Except.error e => Except.error e
      | Except.ok x => x.getNum

/-- The body of the `try` block of `get_currency_rates` (lines 26–36): the
HTTP fetch / JSON decode (the `response` argument) followed by the three
`Valute` extractions; any raise anywhere in the block surfaces as `.error`.
KZT is quoted per 100 units upstream, hence the division. -/
def fetchRates (response : Except String Json) :
    Except String (List (String × ℚ)) :=
  match response with
  | Except.error e => Except.error e
  | Except.ok data =>
    match getValute data "USD" with
    | Except.error e => Except.error e
    | Except.ok usd =>
      match getValute data "EUR" with
      | Except.error e => Except.error e
      | Except.ok eur =>
        match getValute data "KZT" with
        | Except.error e => Except.error e
        | Except.ok kzt =>
          Except.ok [("RUR", 1), ("USD", usd), ("EUR", eur),
                     ("KZT", kzt / 100)]

/-- `get_currency_rates` (lines 24–45): on any exception in the `try` block
the `except Exception` arm returns the hardcoded fallback table.  The
function is total: no exception escapes. -/
def get_currency_rates (response : Except String Json) : List (String × ℚ) :=
  match fetchRates response with
  | Except.ok rates => rates
  | Except.error _ => [("RUR", 1), ("USD", 90), ("EUR", 100), ("KZT", 0.18)]

/-! ## Salary calculator — `calculate_salary` (lines 48–53) -/

/-- Python `dict.get(code, 1)` on the rate table. -/
def ratesGet (rates : List (String × ℚ)) (code : String) : ℚ :=
  (rates.lookup code).getD 1

/-- `calculate_salary` (lines 48–53): `None` when both bounds are NaN;
otherwise `(salary_from + salary_to) / 2` (NaN-propagating) times
`currency_rates.get(salary_currency, 1)`. -/
def calculate_salary (row : Row) (rates : List (String × ℚ)) : Option ℚ :=
  if row.salary_from = none ∧ row.salary_to = none then none
  else
    (nanAdd row.salary_from row.salary_to).map
      (fun s => s / 2 * ratesGet rates row.salary_currency)

/-- Spec-side average of two nullable bounds: present exactly when both
bounds are, in which case it is their arithmetic mean. -/
def averageOpt (a b : Option ℚ) : Option ℚ :=
  match a, b with
  | some x, some y => some ((x + y) / 2)
  | _, _ => none

/-! ## Regular expressions

`analyze_vacancies` builds the pattern `'|'.join(keywords)` and evaluates it
with `str.contains(..., case=False, regex=True)`, and `plot_skills` splits on
the regex `,\s*|\s*и\s*|\s*/\s*`.  We embed the fragment of Python `re`
syntax these uses exercise: literal characters, alternation `|` and the
quantifiers `+`, `*`, `?` (with Python's rejection of a quantifier applied to
a quantified atom, `sre` error "multiple repeat", and of a leading
quantifier, "nothing to repeat").  Matching is by Brzozowski derivatives. -/

/-- Python `str.lower` / `re.IGNORECASE` case folding, on the alphabets the
dataset uses: ASCII `A`–`Z` and Cyrillic `А`–`Я`, `Ё`. -/
def pythonLower (c : Char) : Char :=
  if 65 ≤ c.toNat ∧ c.toNat ≤ 90 then Char.ofNat (c.toNat + 32)
  else if 0x410 ≤ c.toNat ∧ c.toNat ≤ 0x42F then Char.ofNat (c.toNat + 0x20)
  else if c.toNat = 0x401 then Char.ofNat 0x451
  else c

/-- Python `\s` (ASCII whitespace: space, `\t`, `\n`, `\v`, `\f`, `\r`). -/
def isPySpace (c : Char) : Bool :=
  c.toNat = 32 || c.toNat = 9 || c.toNat = 10 || c.toNat = 11 ||
  c.toNat = 12 || c.toNat = 13

/-- Regular expressions over characters. -/
inductive Regex where
  | void
  | eps
  | lit (c : Char)
  | seq (a b : Regex)
  | alt (a b : Regex)
  | star (a : Regex)
deriving DecidableEq, Repr

/-- Whether a regex accepts the empty string. -/
def Regex.nullable : Regex → Bool
  | Regex.void => false
  | Regex.eps => true
  | Regex.lit _ => false
  | Regex.seq a b => a.nullable && b.nullable
  | Regex.alt a b => a.nullable || b.nullable
  | Regex.star _ => true

/-- Brzozowski derivative by one input character.  Literals compare under
`pythonLower` on both sides, embedding `re.IGNORECASE` (`case=False`). -/
def Regex.deriv : Regex → Char → Regex
  | Regex.void, _ => Regex.void
  | Regex.eps, _ => Regex.void
  | Regex.lit c, d =>
    if pythonLower c = pythonLower d then Regex.eps else Regex.void
  | Regex.seq a b, d =>
    if a.nullable then Regex.alt (Regex.seq (a.deriv d) b) (b.deriv d)
    else Regex.seq (a.deriv d) b
  | Regex.alt a b, d => Regex.alt (a.deriv d) (b.deriv d)
  | Regex.star a, d => Regex.seq (a.deriv d) (Regex.star a)

/-- Does some prefix of the input match the regex? -/
def matchHere (re : Regex) : List Char → Bool
  | [] => re.nullable
  | c :: cs => re.nullable || matchHere (re.deriv c) cs

/-- `re.search` semantics: does the regex match at some position of the
input? -/
def regexSearch (re : Regex) : List Char → Bool
  | [] => re.nullable
  | c :: cs => matchHere re (c :: cs) || regexSearch re cs

/-- Apply a quantifier character to an atom. -/
def applyQuant (c : Char) (r : Regex) : Regex :=
  if c = '+' then Regex.seq r (Regex.star r)
  else if c = '*' then Regex.star r
  else Regex.alt r Regex.eps

/-- Append a pending atom to the sequence built so far. -/
def appendTerm (acc : Regex) (last : Option Regex) : Regex :=
  match last with
  | none => acc
  | some a => Regex.seq acc a

/-- Parse one alternation-free branch.  `last` is the most recent atom (the
only place a quantifier may attach), `st` records its quantifier state
(`0` none, `1` quantified, `2` quantified lazily): a quantifier with no
preceding atom is `sre`'s "nothing to repeat", a second quantifier other
than the lazy marker `?` is "multiple repeat". -/
def parseBranchAux : List Char → Regex → Option Regex → Nat →
    Except String Regex
  | [], acc, last, _ => Except.ok (appendTerm acc last)
  | c :: rest, acc, last, st =>
    if c = '+' || c = '*' || c = '?' then
      match last with
      | none => Except.error "nothing to repeat"
      | some a =>
        if st = 0 then parseBranchAux rest acc (some (applyQuant c a)) 1
        else if st = 1 && c = '?' then parseBranchAux rest acc (some a) 2
        else Except.error "multiple repeat"
    else parseBranchAux rest (appendTerm acc last) (some (Regex.lit c)) 0

/-- Parse a branch (no `|` inside). -/
def parseBranch (b : List Char) : Except String Regex :=
  parseBranchAux b Regex.eps none 0

/-- Split a character list at every `|` (the top-level alternation bars;
the pattern grammar has no groups, so every bar is top-level). -/
def splitBarGo : List Char → List Char → List (List Char)
  | [], acc => [acc.reverse]
  | c :: rest, acc =>
    if c = '|' then acc.reverse :: splitBarGo rest []
    else splitBarGo rest (c :: acc)

/-- Compile a pattern: split on the top-level alternation bar and fold the
branches with `Regex.alt`.  A compile error in any branch fails the whole
pattern, as `re.compile` does. -/
def parsePattern (s : String) : Except String Regex :=
  match (splitBarGo s.data []).map parseBranch with
  | [] => Except.ok Regex.eps
  | b :: bs =>
    bs.foldl
      (fun acc br =>
        match acc, br with
        | Except.ok a, Except.ok r => Except.ok (Regex.alt a r)
        | Except.error e, _ => Except.error e
        | _, Except.error e => Except.error e)
      b

/-! ## Skills splitter — from `plot_skills` (lines 102–113)

`df['key_skills'].str.lower().str.split(r',\s*|\s*и\s*|\s*/\s*', regex=True)
.explode().str.strip()`.  The split regex has no zero-width match (every
alternative requires `,`, `и` or `/`), and `\s` is disjoint from `и` and
`/`, so greedy `\s*` never backtracks; `re.split` therefore scans left to
right and at each position tries `,\s*`, then `\s*и\s*`, then `\s*/\s*`. -/

/-- Drop the maximal leading run of whitespace (`\s*`, greedy). -/
def wsDrop (l : List Char) : List Char := l.dropWhile isPySpace

/-- Try to match the separator regex `,\s*|\s*и\s*|\s*/\s*` at the head of
the input; on success return the remainder after the match. -/
def trySep : List Char → Option (List Char)
  | [] => none
  | c :: rest =>
    if c = ',' then some (wsDrop rest)
    else
      match wsDrop (c :: rest) with
      | 'и' :: r2 => some (wsDrop r2)
      | '/' :: r2 => some (wsDrop r2)
      | _ => none

/-- `re.split` driver: scan for the next separator match; cut there and
continue after it.  `fuel` bounds the recursion (every separator match
consumes at least one character); it is instantiated with the input length,
which suffices, so the fuel-exhaustion branch is unreachable. -/
def splitSepGo : Nat → List Char → List Char → List (List Char)
  | _, [], acc => [acc.reverse]
  | 0, l, acc => [acc.reverse ++ l]
  | Nat.succ n, c :: rest, acc =>
    match trySep (c :: rest) with
    | some rem => acc.reverse :: splitSepGo n rem []
    | none => splitSepGo n rest (c :: acc)

/-- `re.split(r',\s*|\s*и\s*|\s*/\s*', s)`. -/
def splitSep (l : List Char) : List (List Char) := splitSepGo l.length l []

/-- Python `str.strip()`: trim whitespace at both ends. -/
def stripChars (l : List Char) : List Char :=
  ((l.dropWhile isPySpace).reverse.dropWhile isPySpace).reverse

/-- The per-cell skills pipeline of `plot_skills` (lines 105–110): lower-case
the cell, split it on the separator regex, strip each piece. -/
def splitSkillsCell (cell : String) : List String :=
  (splitSep (cell.data.map pythonLower)).map
    (fun p => String.mk (stripChars p))

/-! ## Keyword filter and main pipeline — `analyze_vacancies`
(lines 124–159) -/

/-- The title predicate of line 138:
`df['name'].str.contains(pattern, case=False, regex=True, na=False)` —
`False` on a missing title (`na=False`), otherwise a case-insensitive regex
search. -/
def titleMatches (re : Regex) (r : Row) : Bool :=
  match r.name with
  | some t => regexSearch re t.data
  | none => false

/-- Lines 137–138: join the keywords with `'|'`, with no escaping, compile,
and filter.  A compile error is an exception raised by `str.contains`,
outside any `try` block of the script. -/
def filterByKeywords (keywords : List String) (rows : List Row) :
    Except String (List Row) :=
  match parsePattern (String.intercalate "|" keywords) with
  | Except.error e => Except.error e
  | Except.ok re => Except.ok (rows.filter (titleMatches re))

/-- Lines 133–134: `clean_salaries` then
`dropna(subset=['area_name', 'name'])`. -/
def preprocess (rows : List Row) : List Row :=
  (clean_salaries rows).filter (fun r => r.area_name.isSome && r.name.isSome)

/-- Insert into a sorted list (ascending). -/
def insertSorted (x : ℚ) : List ℚ → List ℚ
  | [] => [x]
  | y :: ys => if x ≤ y then x :: y :: ys else y :: insertSorted x ys

/-- Sort ascending (insertion sort). -/
def sortQ (l : List ℚ) : List ℚ := l.foldr insertSorted []

/-- Pandas `Series.mean()` over the non-null values. -/
def meanQ (l : List ℚ) : Option ℚ :=
  match l with
  | [] => none
  | _ => some (l.sum / l.length)

/-- Pandas `Series.median()` over the non-null values. -/
def medianQ (l : List ℚ) : Option ℚ :=
  let s := sortQ l
  match s with
  | [] => none
  | _ =>
    if s.length % 2 = 1 then some (s.getD (s.length / 2) 0)
    else some ((s.getD (s.length / 2 - 1) 0 + s.getD (s.length / 2) 0) / 2)

/-- Minimum of an integer list (pandas `Series.min()`), `none` on empty. -/
def listMinInt (l : List Int) : Option Int :=
  l.foldl
    (fun acc x =>
      match acc with
      | none => some x
      | some m => some (min m x))
    none

/-- Maximum of an integer list (pandas `Series.max()`), `none` on empty. -/
def listMaxInt (l : List Int) : Option Int :=
  l.foldl
    (fun acc x =>
      match acc with
      | none => some x
      | some m => some (max m x))
    none

/-- Observable outcome of one `analyze_vacancies` run.

* `readError e` — line 129: the `except` arm prints the file-read error and
  the function returns; nothing further executes.
* `patternError e` — an exception raised while compiling/evaluating the
  keyword regex (line 138).  It is *not* caught anywhere, so the run aborts
  outside the printed-message error handling.
* `noVacancies` — lines 140–142: prints "Нет вакансий, соответствующих
  критериям" and returns; no statistics, no charts.
* `completed` — lines 144–159: carries the printed statistics (row count,
  min/max year, mean and median salary) and the list of chart generators
  invoked, in order. -/
inductive RunOutcome where
  | readError (e : String)
  | patternError (e : String)
  | noVacancies
  | completed (count : Nat) (yearMin yearMax : Option Int)
      (meanSalary medianSalary : Option ℚ) (charts : List String)
deriving DecidableEq, Repr

/-- The chart generators an outcome invoked. -/
def chartsOf : RunOutcome → List String
  | RunOutcome.completed _ _ _ _ _ cs => cs
  | _ => []

/-- `analyze_vacancies` (lines 124–159).  `loadResult` models
`pd.read_csv(filename, parse_dates=['published_at'])`, `response` the HTTP
response used by each `get_currency_rates()` call of line 147 (each per-row
call receives the same response, hence the same table). -/
def analyze_vacancies (loadResult : Except String (List Row))
    (keywords : List String) (response : Except String Json) : RunOutcome :=
  match loadResult with
  | Except.error e => RunOutcome.readError e
  | Except.ok df0 =>
    let df := preprocess df0
    match filterByKeywords keywords df with
    | Except.error e => RunOutcome.patternError e
    | Except.ok filtered =>
      if filtered.length = 0 then RunOutcome.noVacancies
      else
        let years := filtered.map (fun r => r.published_year)
        let salaries :=
          (filtered.map
            (fun r => calculate_salary r (get_currency_rates response))
          ).filterMap id
        RunOutcome.completed filtered.length (listMinInt years)
          (listMaxInt years) (meanQ salaries) (medianQ salaries)
          ["plot_top_cities_by_year", "plot_salaries", "plot_skills"]

/-! ## Example rows used by witnesses -/

/-- A fully populated row with a USD salary range. -/
def rowUsd : Row :=
  ⟨some "разработчик", some "Москва", 2023, some 100, some 200, "USD", none⟩

/-- A row carrying only the lower salary bound. -/
def rowOnlyFrom : Row :=
  ⟨some "продавец", some "Казань", 2022, some 50, none, "RUR", none⟩

/-- A row with both salary bounds missing. -/
def rowNoSalary : Row :=
  ⟨some "аналитик", some "Омск", 2021, none, none, "RUR", none⟩

/-- A seller row, used to exercise the keyword filter. -/
def rowSeller : Row :=
  ⟨some "Продавец-консультант", some "Москва", 2023, some 50000, some 60000,
   "RUR", some "продажи"⟩

/-- A teacher row whose title is upper-case Cyrillic. -/
def rowTeacher : Row :=
  ⟨some "УЧИТЕЛЬ", some "Москва", 2023, some 30000, some 40000, "RUR", none⟩

/-- A one-entry rate table used by witnesses. -/
def ratesUsd : List (String × ℚ) := [("USD", 90)]

/-! ## Claims -/

/-- **C1.** For every row in which at least one of `salary_from`/`salary_to`
is present, `calculate_salary` returns `average(salary_from, salary_to)`
(absent when NaN arithmetic makes it so, i.e. when only one bound is
present — which cannot happen after normalization) multiplied by the rate
table's entry for the row's currency, and a currency code absent from the
table gets multiplier 1.  The function is total, so no input errors. -/
theorem calculate_salary_spec (row : Row) (rates : List (String × ℚ))
    (h : row.salary_from ≠ none ∨ row.salary_to ≠ none) :
    calculate_salary row rates
      = (averageOpt row.salary_from row.salary_to).map
          (fun a => a * ratesGet rates row.salary_currency)
    ∧ (rates.lookup row.salary_currency = none →
        ratesGet rates row.salary_currency = 1) := by
  refine ⟨?_, fun hl => by simp [ratesGet, hl]⟩
  rcases hf : row.salary_from with _ | x <;> rcases ht : row.salary_to with _ | y
  · simp [hf, ht] at h
  all_goals
    simp [calculate_salary, nanAdd, averageOpt, hf, ht, div_mul_eq_mul_div,
      mul_comm, mul_div_assoc]

/-- Witness for C1: the hypothesis and conclusion at `rowUsd` with a
one-entry rate table. -/
theorem calculate_salary_spec_witness :
    (rowUsd.salary_from ≠ none ∨ rowUsd.salary_to ≠ none)
    ∧ (calculate_salary rowUsd ratesUsd
        = (averageOpt rowUsd.salary_from rowUsd.salary_to).map
            (fun a => a * ratesGet ratesUsd rowUsd.salary_currency)
      ∧ (List.lookup rowUsd.salary_currency ratesUsd = none →
          ratesGet ratesUsd rowUsd.salary_currency = 1)) :=
  ⟨Or.inl (by decide), calculate_salary_spec rowUsd ratesUsd
    (Or.inl (by decide))⟩

/-- **C2.** A row with exactly one salary bound present survives
normalization with both bounds equal to that single value. -/
theorem clean_salaries_fills_half_missing (rows : List Row) (r : Row) (v : ℚ)
    (hm : r ∈ rows)
    (h : (r.salary_from = some v ∧ r.salary_to = none)
       ∨ (r.salary_from = none ∧ r.salary_to = some v)) :
    fillRow r ∈ clean_salaries rows
    ∧ (fillRow r).salary_from = some v
    ∧ (fillRow r).salary_to = some v := by
  have hfields : (fillRow r).salary_from = some v
      ∧ (fillRow r).salary_to = some v := by
    rcases h with ⟨h1, h2⟩ | ⟨h1, h2⟩ <;> simp [fillRow, h1, h2]
  refine ⟨List.mem_filter.mpr ⟨List.mem_map_of_mem fillRow hm, ?_⟩,
    hfields.1, hfields.2⟩
  simp [hfields.1]

/-- Witness for C2: the one-bound row `rowOnlyFrom` in a singleton table. -/
theorem clean_salaries_fills_half_missing_witness :
    rowOnlyFrom ∈ [rowOnlyFrom]
    ∧ ((rowOnlyFrom.salary_from = some 50 ∧ rowOnlyFrom.salary_to = none)
       ∨ (rowOnlyFrom.salary_from = none ∧ rowOnlyFrom.salary_to = some 50))
    ∧ (fillRow rowOnlyFrom ∈ clean_salaries [rowOnlyFrom]
      ∧ (fillRow rowOnlyFrom).salary_from = some 50
      ∧ (fillRow rowOnlyFrom).salary_to = some 50) :=
  ⟨by decide, Or.inl (by decide),
    clean_salaries_fills_half_missing [rowOnlyFrom] rowOnlyFrom 50
      (by decide) (Or.inl (by decide))⟩

/-- **C3.** Whenever the `try` block of `get_currency_rates` raises —
network failure, JSON decode failure, or a missing key — the function
returns exactly the fallback table `{RUR: 1, USD: 90, EUR: 100, KZT: 0.18}`
and, being total, never propagates the exception. -/
theorem get_currency_rates_fallback (response : Except String Json)
    (e : String) (h : fetchRates response = Except.error e) :
    get_currency_rates response
      = [("RUR", 1), ("USD", 90), ("EUR", 100), ("KZT", 0.18)] := by
  simp [get_currency_rates, h]

/-- Witness for C3: a failed HTTP request. -/
theorem get_currency_rates_fallback_witness :
    fetchRates (Except.error "ConnectionError") = Except.error "ConnectionError"
    ∧ get_currency_rates (Except.error "ConnectionError")
      = [("RUR", 1), ("USD", 90), ("EUR", 100), ("KZT", 0.18)] :=
  ⟨rfl, get_currency_rates_fallback (Except.error "ConnectionError")
    "ConnectionError" rfl⟩

/-- The live-path rate table always starts `[("RUR", 1), ...]`. -/
theorem fetchRates_ok_shape (response : Except String Json)
    (r : List (String × ℚ)) (h : fetchRates response = Except.ok r) :
    ∃ u ev k, r = [("RUR", 1), ("USD", u), ("EUR", ev), ("KZT", k)] := by
  unfold fetchRates at h
  repeat' split at h
  all_goals simp_all
  exact ⟨_, _, _, h.symm⟩

/-- **C4.** On every execution path — live fetch succeeding or
any-exception fallback — the returned rate table maps `RUR` to 1. -/
theorem get_currency_rates_rur_one (response : Except String Json) :
    (get_currency_rates response).lookup "RUR" = some 1 := by
  unfold get_currency_rates
  cases hr : fetchRates response with
  | error e => rfl
  | ok r =>
    obtain ⟨u, ev, k, rfl⟩ := fetchRates_ok_shape response r hr
    rfl

/-- **C5.** Every row of the normalized table has at least one salary bound
present; consequently a row whose both bounds are absent never appears in
the output of `clean_salaries`. -/
theorem clean_salaries_drops_both_missing :
    (∀ (rows : List Row) (r : Row), r ∈ clean_salaries rows →
      r.salary_from.isSome ∨ r.salary_to.isSome)
    ∧ (∀ (rows : List Row) (r : Row), r.salary_from = none →
        r.salary_to = none → r ∉ clean_salaries rows) := by
  have h1 : ∀ (rows : List Row) (r : Row), r ∈ clean_salaries rows →
      r.salary_from.isSome ∨ r.salary_to.isSome := by
    intro rows r h
    have hp := (List.mem_filter.mp h).2
    rcases hf : r.salary_from with _ | x
    · rcases ht : r.salary_to with _ | y
      · simp [hf, ht] at hp
      · exact Or.inr (by simp [ht])
    · exact Or.inl (by simp [hf])
  refine ⟨h1, fun rows r hf ht hmem => ?_⟩
  have := h1 rows r hmem
  simp [hf, ht] at this

/-- Witness for C5: the filled half-missing row is present with a bound, and
the no-salary row is gone. -/
theorem clean_salaries_drops_both_missing_witness :
    (fillRow rowOnlyFrom ∈ clean_salaries [rowOnlyFrom, rowNoSalary]
      ∧ ((fillRow rowOnlyFrom).salary_from.isSome
        ∨ (fillRow rowOnlyFrom).salary_to.isSome))
    ∧ (rowNoSalary.salary_from = none ∧ rowNoSalary.salary_to = none
      ∧ rowNoSalary ∉ clean_salaries [rowOnlyFrom, rowNoSalary]) :=
  ⟨⟨by decide, clean_salaries_drops_both_missing.1 [rowOnlyFrom, rowNoSalary]
      (fillRow rowOnlyFrom) (by decide)⟩,
    by decide, by decide,
    clean_salaries_drops_both_missing.2 [rowOnlyFrom, rowNoSalary] rowNoSalary
      (by decide) (by decide)⟩

/-- **C6.** The keyword filter retains exactly the rows whose title
case-insensitively matches the compiled alternation of the keywords (and
fails instead of filtering when the pattern does not compile); in
particular the upper-case Cyrillic title `УЧИТЕЛЬ` matches the lower-case
keyword `учитель`. -/
theorem keyword_filter_spec :
    (∀ (kws : List String) (rows : List Row),
      filterByKeywords kws rows
        = (parsePattern (String.intercalate "|" kws)).map
            (fun re => rows.filter (titleMatches re)))
    ∧ filterByKeywords ["учитель"] [rowTeacher, rowSeller]
        = Except.ok [rowTeacher] := by
  constructor
  · intro kws rows
    unfold filterByKeywords
    cases parsePattern (String.intercalate "|" kws) <;> rfl
  · rfl

/-- **C7.** The skills splitter of `plot_skills`, applied to
`"Python, Java и SQL/Git"`, lower-cases, splits on commas, the conjunction
`и` and slashes (with surrounding whitespace absorbed), and trims, yielding
exactly `[python, java, sql, git]`. -/
theorem splitSkillsCell_example :
    splitSkillsCell "Python, Java и SQL/Git"
      = ["python", "java", "sql", "git"] := rfl

/-- **C8.** When keyword filtering yields an empty result set, the run
reports "Нет вакансий, соответствующих критериям" and stops: no statistics
are computed and no chart generator is invoked. -/
theorem analyze_vacancies_no_matches (rows : List Row) (kws : List String)
    (response : Except String Json)
    (h : filterByKeywords kws (preprocess rows) = Except.ok []) :
    analyze_vacancies (Except.ok rows) kws response = RunOutcome.noVacancies
    ∧ chartsOf (analyze_vacancies (Except.ok rows) kws response) = [] := by
  simp only [analyze_vacancies, h]
  exact ⟨rfl, rfl⟩

/-- Witness for C8: the keyword `учитель` matches no title of the seller-only
table. -/
theorem analyze_vacancies_no_matches_witness :
    filterByKeywords ["учитель"] (preprocess [rowSeller]) = Except.ok []
    ∧ (analyze_vacancies (Except.ok [rowSeller]) ["учитель"]
        (Except.error "ConnectionError") = RunOutcome.noVacancies
      ∧ chartsOf (analyze_vacancies (Except.ok [rowSeller]) ["учитель"]
          (Except.error "ConnectionError")) = []) :=
  ⟨rfl, analyze_vacancies_no_matches [rowSeller] ["учитель"]
    (Except.error "ConnectionError") rfl⟩

/-- **C9.** When loading the input file raises, `analyze_vacancies` prints
the read error and returns at once: the outcome is `readError` and no
normalization, filtering, statistics or charting happens (in particular no
chart generator is invoked). -/
theorem analyze_vacancies_read_error (e : String) (kws : List String)
    (response : Except String Json) :
    analyze_vacancies (Except.error e) kws response = RunOutcome.readError e
    ∧ chartsOf (analyze_vacancies (Except.error e) kws response) = [] :=
  ⟨rfl, rfl⟩

/-- **C10.** The keywords are joined with `'|'` and handed to the regex
engine unescaped, so a keyword containing metacharacters is read as regex
syntax: with keyword `C++` the pattern fails to compile ("multiple repeat",
as `re` raises on `C++`) and the run aborts with an uncaught exception —
`patternError`, distinct from every printed-message outcome — before any
filtering, statistics or charting. -/
theorem keyword_regex_unescaped :
    parsePattern (String.intercalate "|" ["C++"])
      = Except.error "multiple repeat"
    ∧ analyze_vacancies (Except.ok [rowSeller]) ["C++"]
        (Except.error "ConnectionError")
      = RunOutcome.patternError "multiple repeat"
    ∧ chartsOf (analyze_vacancies (Except.ok [rowSeller]) ["C++"]
        (Except.error "ConnectionError")) = [] :=
  ⟨rfl, rfl, rfl⟩

end ParseCsv
